import Mathlib

/-!
Shallow embedding of the `blis-sys` build script (`src/build.rs`).

The script is a Cargo build script.  Its effects are: probing environment
variables, probing the filesystem, removing a stale staged build tree,
spawning subprocesses (`cp`, the vendored `configure`, `make install`),
printing `cargo:` directives, and writing a generated bindings file.
We embed it as a pure function from an abstract `World` (the environment
map, a file-existence oracle, and the outcomes of the external
collaborators) to an `Outcome`: the ordered list of observable effect
events together with an optional panic reason (Rust `panic!` / `unwrap` /
`expect` aborts the process).
-/

namespace BlisSys

/-- Result of the host `std::env::var`: a set variable yields its (unicode)
value, an unset variable yields `notPresent`, a set-but-non-unicode variable
yields `notUnicode`.  A variable set to the empty string yields `.ok ""`. -/
inductive VarError where
  | notPresent
  | notUnicode
deriving DecidableEq, Repr

/-- The host process environment, as seen through `std::env::var`. -/
def HostEnv : Type := String → Except VarError String

/-- Embeds `fn env(k: &str) -> Option<String>` (build.rs lines 21-26):
`Ok(v) => Some(v)`, `Err(_) => None`. -/
def env (host : HostEnv) (k : String) : Option String :=
  match host k with
  | .ok v => some v
  | .error _ => none

/-- Why the process aborted, when it did.  Each constructor corresponds to a
`panic!`, `.unwrap()` or `.expect(..)` site in build.rs. -/
inductive PanicReason where
  /-- The threading-conflict panic of build.rs line 40, whose message names
  the two mutually exclusive features. -/
  | mutuallyExclusiveThreading
  /-- An unwrap of a `None` environment lookup for the named variable. -/
  | unwrapNone (var : String)
  /-- The unreadable-or-empty `upstream` directory panic of build.rs line 100. -/
  | upstreamUnreadable
  /-- The bindings-generation expect failure of build.rs line 137. -/
  | unableToGenerateBindings
deriving DecidableEq, Repr

/-- Embeds an `env(k)` lookup followed by unwrap: the value, or a panic. -/
def unwrapEnv (host : HostEnv) (k : String) : Except PanicReason String :=
  match env host k with
  | some v => .ok v
  | none => .error (.unwrapNone k)

/-- Observable effect events of one invocation, in program order. -/
inductive Event where
  /-- The existence probe of the expected artifact path (build.rs line 88). -/
  | probeFile (path : String)
  /-- The recursive removal of the staged tree (build.rs line 92). -/
  | removeDirAll (path : String)
  /-- A subprocess launch: program, argument list, extra environment. -/
  | spawn (prog : String) (args : List String) (extraEnv : List (String × String))
  /-- A `println!("cargo:...")` directive line. -/
  | emit (line : String)
  /-- The write of the generated bindings file (build.rs lines 140-142). -/
  | writeBindings (path : String)
deriving DecidableEq, Repr

/-- The trace of events an invocation produced, plus whether it panicked
(events before the panic are in the trace). -/
structure Outcome where
  trace : List Event
  panic : Option PanicReason
deriving DecidableEq, Repr

/-- Embeds the threading-backend match (build.rs lines 33-41): `pthreads`
when only `CARGO_FEATURE_PARALLEL_PTHREADS` is set, `openmp` when only
`CARGO_FEATURE_PARALLEL_OPENMP` is set, `no` when neither is, and a panic
when both are. -/
def threadingOf (host : HostEnv) : Except PanicReason String :=
  match env host "CARGO_FEATURE_PARALLEL_PTHREADS",
        env host "CARGO_FEATURE_PARALLEL_OPENMP" with
  | some _, none => .ok "pthreads"
  | none, some _ => .ok "openmp"
  | none, none => .ok "no"
  | some _, some _ => .error .mutuallyExclusiveThreading

/-- Embeds the linkage-mode branch (build.rs lines 43-47). -/
def staticArgs (host : HostEnv) : List String :=
  if (env host "CARGO_FEATURE_STATIC").isSome then
    ["--enable-static", "--disable-shared"]
  else
    ["--disable-static", "--enable-shared"]

/-- The fixed toolchain-override name list (build.rs line 48), in source
order. -/
def overrideVars : List String := ["CC", "FC", "RANLIB", "AR", "CFLAGS", "LDFLAGS"]

/-- Embeds the override loop (build.rs lines 48-52): for each name in
`overrideVars`, when `TARGET_<name>` is set append `<name>=<value>`. -/
def overrideArgs (host : HostEnv) : List String :=
  overrideVars.filterMap fun v =>
    (env host ("TARGET_" ++ v)).map fun value => v ++ "=" ++ value

/-- Embeds the architecture-to-configuration-name table (build.rs
lines 57-72), used only when no explicit override is supplied. -/
def archConfname (rustArch : String) (runtimeDispatch : Bool) : String :=
  match rustArch with
  | "x86_64" => if runtimeDispatch then "x86_64" else "auto"
  | "arm" | "armv7" => "auto"
  | "aarch64" => "auto"
  | "powerpc64" => "auto"
  | _ => "generic"

/-- Embeds build.rs lines 53-74: `CARGO_CFG_TARGET_ARCH` is unwrapped
first; an explicit `BLIS_CONFNAME` override is used verbatim, else the
architecture table decides (with `CARGO_FEATURE_RUNTIME_DISPATCH` feeding
the x86_64 branch). -/
def blisConfname (host : HostEnv) : Except PanicReason String := do
  let rustArch ← unwrapEnv host "CARGO_CFG_TARGET_ARCH"
  .ok (match env host "BLIS_CONFNAME" with
    | some a => a
    | none =>
      archConfname rustArch (env host "CARGO_FEATURE_RUNTIME_DISPATCH").isSome)

/-- The full argument list of the `configure` subprocess, assembled in the
order of build.rs lines 29-75: the `--prefix=` argument, the threading
argument, the linkage pair, the toolchain overrides, and finally the
configuration-name token as the last positional argument.  The threading
panic (both parallel features set) fires before the arch-lookup panic,
matching source order. -/
def configureArgs (host : HostEnv) (outDir : String) :
    Except PanicReason (List String) := do
  let threading ← threadingOf host
  let confname ← blisConfname host
  .ok (["--prefix=" ++ outDir, "--enable-threading=" ++ threading]
    ++ staticArgs host ++ overrideArgs host ++ [confname])

/-- Embeds `fn compile(blis_build, out_dir)` (build.rs lines 28-82):
assemble the configure arguments (possibly panicking), spawn
`<blis_build>/configure` with them, unwrap `CARGO_MAKEFLAGS` (note this
happens only after configure has been spawned), then spawn
`make install` with `MAKEFLAGS` in its environment.  Subprocess exit
status is modelled as success (`run` would panic on failure; no claim
concerns subprocess failure). -/
def compile (host : HostEnv) (blisBuild outDir : String) : Outcome :=
  match configureArgs host outDir with
  | .error r => ⟨[], some r⟩
  | .ok args =>
    let cfg := Event.spawn (blisBuild ++ "/configure") args []
    match unwrapEnv host "CARGO_MAKEFLAGS" with
    | .error r => ⟨[cfg], some r⟩
    | .ok mf => ⟨[cfg, Event.spawn "make" ["install"] [("MAKEFLAGS", mf)]], none⟩

/-- The abstract world one invocation runs in: the process environment, a
file-existence oracle, whether the `upstream` directory is readable and
non-empty (build.rs lines 95-99), and whether bindgen can generate
bindings from the installed header (build.rs line 136). -/
structure World where
  host : HostEnv
  fileExists : String → Bool
  upstreamOk : Bool
  bindgenOk : Bool

/-- Embeds Rust `str::to_lowercase` as a structurally recursive map (the
`String.mapAux` in core `String.toLower` does not reduce definitionally;
this pointwise form does, and agrees character-wise). -/
def lowercase (s : String) : String := ⟨s.data.map Char.toLower⟩

/-- The build-or-skip phase of `main` (build.rs lines 86-104), given the
unwrapped `OUT_DIR`: probe `out_dir/lib/libblis.a`; when absent, unwrap
`TARGET`, remove any stale staged tree `blis_<target lowercased>`, check
the vendored `upstream` directory, spawn `cp -R upstream <build_dir>`,
and run `compile`. -/
def buildPhase (w : World) (outDir : String) : Outcome :=
  let lib := outDir ++ "/lib" ++ "/libblis.a"
  let probe := Event.probeFile lib
  if w.fileExists lib then ⟨[probe], none⟩
  else
    match unwrapEnv w.host "TARGET" with
    | .error r => ⟨[probe], some r⟩
    | .ok target =>
      let buildDir := outDir ++ "/blis_" ++ lowercase target
      let t1 := if w.fileExists buildDir then
          [probe, Event.removeDirAll buildDir] else [probe]
      if !w.upstreamOk then ⟨t1, some .upstreamUnreadable⟩
      else
        let t2 := t1 ++ [Event.spawn "cp" ["-R", "upstream", buildDir] []]
        let c := compile w.host buildDir outDir
        ⟨t2 ++ c.trace, c.panic⟩

/-- The four `cargo:` directive lines of build.rs lines 105-118, in order:
link-search, include, link-lib (kind `static` when the `static` feature is
set, else `dylib`), rerun-if-changed. -/
def linkDirectives (host : HostEnv) (outDir : String) : List Event :=
  let kind := if (env host "CARGO_FEATURE_STATIC").isSome then "static" else "dylib"
  [Event.emit ("cargo:rustc-link-search=native=" ++ (outDir ++ "/lib")),
   Event.emit ("cargo:include=" ++ (outDir ++ "/include")),
   Event.emit ("cargo:rustc-link-lib=" ++ kind ++ "=blis"),
   Event.emit "cargo:rerun-if-changed=build.rs"]

/-- Embeds `fn main` (build.rs lines 84-143): unwrap `OUT_DIR`, run the
build-or-skip phase, then (when it did not panic) print the `cargo:`
directives unconditionally and run bindgen, writing `bindings.rs` on
success and aborting on generation failure.  The final write is modelled
as succeeding (the expect failure of the final write is not exercised by
any claim). -/
def mainRun (w : World) : Outcome :=
  match unwrapEnv w.host "OUT_DIR" with
  | .error r => ⟨[], some r⟩
  | .ok outDir =>
    let pre := buildPhase w outDir
    match pre.panic with
    | some r => ⟨pre.trace, some r⟩
    | none =>
      let t := pre.trace ++ linkDirectives w.host outDir
      if w.bindgenOk then
        ⟨t ++ [Event.writeBindings (outDir ++ "/bindings.rs")], none⟩
      else
        ⟨t, some .unableToGenerateBindings⟩

/-- Embeds `bindgen::callbacks::MacroParsingBehavior`: the callback answer
controlling whether the parser skips a macro. -/
inductive MacroParsingBehavior where
  | Ignore
  | Default
deriving DecidableEq, Repr

/-- Embeds `struct IgnoreMacros(HashSet<String>)` (build.rs line 9); the
hash set is modelled as its list of member names. -/
structure IgnoreMacros where
  names : List String
deriving DecidableEq, Repr

/-- Embeds the `ParseCallbacks` implementation (build.rs lines 11-19):
answer `Ignore` exactly for names in the set, `Default` for all others. -/
def IgnoreMacros.willParseMacro (s : IgnoreMacros) (name : String) :
    MacroParsingBehavior :=
  if s.names.contains name then .Ignore else .Default

/-- The concrete exclusion set built in `main` (build.rs lines 120-131). -/
def ignoredMacros : IgnoreMacros :=
  ⟨["FP_INFINITE", "FP_NAN", "FP_NORMAL", "FP_SUBNORMAL", "FP_ZERO",
    "IPPORT_RESERVED"]⟩

/-- Modelled from the spec: the header-parsing engine (bindgen) is an
external collaborator, not code of this repository; per the spec it is a
black box that, for each macro name encountered in the header, skips the
macro when the exclusion callback answers `Ignore` and processes it with
default behavior otherwise, so the generated output contains declarations
exactly for the non-skipped macro names. -/
def generatedMacroNames (cb : IgnoreMacros) (headerNames : List String) :
    List String :=
  headerNames.filter fun n =>
    match cb.willParseMacro n with
    | .Ignore => false
    | .Default => true

/-- Classifies the effect events of the Native Build Driver: subprocess
launches and staged-build-tree removal.  Directive emission, the artifact
probe (a read) and the bindings write belong to the other components. -/
def Event.isDriverEffect : Event → Bool
  | .spawn _ _ _ => true
  | .removeDirAll _ => true
  | _ => false

/-- The Environment Reader contract as the spec words it (refinement
comparison target for the source `env`): the value only when the variable
is set AND non-empty, an empty result otherwise. -/
def envSpecified (host : HostEnv) (k : String) : Option String :=
  match host k with
  | .ok v => if v = "" then none else some v
  | .error _ => none

/-- Builds a host environment from an association list; absent keys are
not present. -/
def hostOf (l : List (String × String)) : HostEnv := fun k =>
  match l.lookup k with
  | some v => .ok v
  | none => .error .notPresent

/-- A host with both mutually exclusive threading features enabled and
everything else a build needs. -/
def hostBoth : HostEnv := hostOf
  [("OUT_DIR", "out"), ("TARGET", "t"),
   ("CARGO_FEATURE_PARALLEL_PTHREADS", "1"),
   ("CARGO_FEATURE_PARALLEL_OPENMP", "1"),
   ("CARGO_CFG_TARGET_ARCH", "x86_64"), ("CARGO_MAKEFLAGS", "-j2")]

/-- A world in which no file exists yet: the build path is taken. -/
def worldBoth : World := ⟨hostBoth, fun _ => false, true, true⟩

/-- A world in which the expected artifact `out/lib/libblis.a` is already
present, while both threading features are (conflictingly) enabled. -/
def worldSkip : World := ⟨hostBoth, fun p => p == "out/lib/libblis.a", true, true⟩

/-- A host with a set-but-empty variable, distinguishing the source `env`
from the spec wording. -/
def hostEmptyVar : HostEnv := fun k =>
  if k = "SET_EMPTY" then .ok "" else .error .notPresent

/-- A host targeting `aarch64` with no configuration-name override. -/
def hostArm : HostEnv := hostOf
  [("OUT_DIR", "out"), ("CARGO_CFG_TARGET_ARCH", "aarch64")]

/-- A host with no threading features, an unmapped architecture and two
toolchain overrides set. -/
def hostPlain : HostEnv := hostOf
  [("OUT_DIR", "out"), ("CARGO_CFG_TARGET_ARCH", "riscv64"),
   ("TARGET_CC", "gcc"), ("TARGET_CFLAGS", "-O2"), ("CARGO_MAKEFLAGS", "-j2")]

/-! ## Helper lemmas -/

/-- Appending a final singleton fixes `getLast?`. -/
lemma getLast?_append_singleton {α : Type} (l : List α) (a : α) :
    (l ++ [a]).getLast? = some a :=
  List.getLast?_concat l

/-- A `filterMap` over `Option.map` equals filter-then-map. -/
lemma filterMap_optionMap_eq {α β γ : Type} (g : α → Option β) (f : α → β → γ)
    (d : β) (l : List α) :
    (l.filterMap fun v => (g v).map (f v)) =
      (l.filter fun v => (g v).isSome).map fun v => f v ((g v).getD d) := by
  induction l with
  | nil => rfl
  | cons a t ih =>
    cases h : g a <;>
      simp [List.filterMap_cons, List.filter_cons, h, ih]

/-- Successful `configureArgs` decomposes into its five blocks. -/
lemma configureArgs_ok (host : HostEnv) (outDir : String) (args : List String)
    (h : configureArgs host outDir = .ok args) :
    ∃ threading confname,
      threadingOf host = .ok threading ∧ blisConfname host = .ok confname ∧
      args = ["--prefix=" ++ outDir, "--enable-threading=" ++ threading]
        ++ staticArgs host ++ overrideArgs host ++ [confname] := by
  unfold configureArgs at h
  cases ht : threadingOf host with
  | error r => rw [ht] at h; exact absurd h (by simp [Bind.bind, Except.bind])
  | ok threading =>
    rw [ht] at h
    cases hc : blisConfname host with
    | error r => rw [hc] at h; exact absurd h (by simp [Bind.bind, Except.bind])
    | ok confname =>
      rw [hc] at h
      refine ⟨threading, confname, rfl, rfl, ?_⟩
      have := h
      simp [Bind.bind, Except.bind] at this
      simp [this]

/-- Every event in a `compile` trace is a subprocess launch. -/
lemma compile_trace_spawn (host : HostEnv) (b o : String) :
    ∀ e ∈ (compile host b o).trace, ∃ p a ex, e = Event.spawn p a ex := by
  unfold compile
  cases hc : configureArgs host o with
  | error r => simp
  | ok args =>
    cases hm : unwrapEnv host "CARGO_MAKEFLAGS" with
    | error r => simp
    | ok mf => simp

/-- The build-or-skip phase always probes the expected artifact first, and
every later event of its trace is a staged-tree removal or a subprocess
launch. -/
lemma buildPhase_shape (w : World) (outDir : String) :
    ∃ rest, (buildPhase w outDir).trace =
        Event.probeFile (outDir ++ "/lib" ++ "/libblis.a") :: rest ∧
      ∀ e ∈ rest, (∃ p, e = Event.removeDirAll p) ∨ ∃ p a ex, e = Event.spawn p a ex := by
  unfold buildPhase
  by_cases hlib : w.fileExists (outDir ++ "/lib" ++ "/libblis.a") <;> simp [hlib]
  cases htg : unwrapEnv w.host "TARGET" with
  | error r => simp
  | ok target =>
    by_cases hbd : w.fileExists (outDir ++ "/blis_" ++ lowercase target) <;>
      by_cases hup : w.upstreamOk <;>
        simp [hbd, hup] <;>
          intro e he <;>
            (rcases compile_trace_spawn w.host _ _ e he with ⟨p, a, ex, rfl⟩
             exact Or.inr ⟨p, a, ex, rfl⟩)

/-- The architecture-to-token table, re-expressed as the documented
if-chain. -/
lemma archConfname_eq (arch : String) (d : Bool) :
    archConfname arch d =
      if arch = "x86_64" then (if d then "x86_64" else "auto")
      else if arch = "arm" ∨ arch = "armv7" ∨ arch = "aarch64" ∨ arch = "powerpc64"
      then "auto" else "generic" := by
  unfold archConfname
  split <;> simp_all

/-- Unfolds `mainRun` into its phases, once `OUT_DIR` resolves. -/
lemma mainRun_unfold (w : World) (outDir : String)
    (hout : w.host "OUT_DIR" = .ok outDir) :
    mainRun w =
      match (buildPhase w outDir).panic with
      | some r => ⟨(buildPhase w outDir).trace, some r⟩
      | none =>
        if w.bindgenOk then
          ⟨(buildPhase w outDir).trace ++ linkDirectives w.host outDir ++
            [Event.writeBindings (outDir ++ "/bindings.rs")], none⟩
        else
          ⟨(buildPhase w outDir).trace ++ linkDirectives w.host outDir,
            some .unableToGenerateBindings⟩ := by
  have hun : unwrapEnv w.host "OUT_DIR" = .ok outDir := by
    unfold unwrapEnv env; rw [hout]
  unfold mainRun
  rw [hun]

/-- When the artifact is already present the build-or-skip phase is just
the probe. -/
lemma buildPhase_skip (w : World) (outDir : String)
    (hlib : w.fileExists (outDir ++ "/lib" ++ "/libblis.a") = true) :
    buildPhase w outDir =
      ⟨[Event.probeFile (outDir ++ "/lib" ++ "/libblis.a")], none⟩ := by
  unfold buildPhase
  simp [hlib]

/-- The full trace opens with the artifact probe and contains no other
probe event. -/
lemma mainRun_trace_shape (w : World) (outDir : String)
    (hout : w.host "OUT_DIR" = .ok outDir) :
    ∃ rest, (mainRun w).trace =
        Event.probeFile (outDir ++ "/lib" ++ "/libblis.a") :: rest ∧
      ∀ e ∈ rest, ∀ q, e ≠ Event.probeFile q := by
  rw [mainRun_unfold w outDir hout]
  rcases buildPhase_shape w outDir with ⟨rest, htr, hrest⟩
  have hnotprobe : ∀ e ∈ rest, ∀ q, e ≠ Event.probeFile q := by
    intro e he q
    rcases hrest e he with ⟨p, rfl⟩ | ⟨p, a, ex, rfl⟩ <;> intro hc <;> cases hc
  have hdir : ∀ e ∈ linkDirectives w.host outDir, ∀ q, e ≠ Event.probeFile q := by
    intro e he q
    simp only [linkDirectives, List.mem_cons, List.not_mem_nil, or_false] at he
    rcases he with rfl | rfl | rfl | rfl <;> (intro hc; cases hc)
  cases hpan : (buildPhase w outDir).panic with
  | some r => exact ⟨rest, by simp [htr], hnotprobe⟩
  | none =>
    by_cases hb : w.bindgenOk
    · rw [if_pos hb]
      refine ⟨rest ++ linkDirectives w.host outDir ++
        [Event.writeBindings (outDir ++ "/bindings.rs")], by rw [htr]; simp, ?_⟩
      intro e he q
      rcases List.mem_append.mp he with he2 | he2
      · rcases List.mem_append.mp he2 with he3 | he3
        · exact hnotprobe e he3 q
        · exact hdir e he3 q
      · rcases List.mem_cons.mp he2 with rfl | h
        · intro hc; cases hc
        · cases h
    · rw [if_neg hb]
      refine ⟨rest ++ linkDirectives w.host outDir, by rw [htr]; simp, ?_⟩
      intro e he q
      rcases List.mem_append.mp he with he2 | he2
      · exact hnotprobe e he2 q
      · exact hdir e he2 q

/-! ## Claim theorems -/

/-- C4 (counterexample): the spec says a set-but-empty variable yields an
empty result, but the source `env` forwards `Ok("")` as `Some("")`; on a
host where `SET_EMPTY` is set to the empty string the two disagree. -/
theorem c4_counterexample :
    env hostEmptyVar "SET_EMPTY" = some "" ∧
    envSpecified hostEmptyVar "SET_EMPTY" = none := by
  constructor <;> rfl

/-- C4 (amended): the environment lookup returns the value of the variable
exactly when the variable is set (to a unicode value, even the empty one),
and an empty result when it is unset or non-unicode; it never fails or
raises for a missing key — it is the total `Except`-to-`Option`
projection of the host lookup. -/
theorem c4_env_passthrough (host : HostEnv) (k : String) :
    env host k = (host k).toOption := by
  unfold env Except.toOption
  cases host k <;> rfl

/-- C7: the override resolver appends `NAME=value` exactly for the names
in the fixed list `CC, FC, RANLIB, AR, CFLAGS, LDFLAGS` whose
target-scoped value `TARGET_NAME` exists, in that order, silently
skipping the rest; and the whole block sits inside the configuration
arguments just before the final configuration-name token. -/
theorem c7_override_resolution (host : HostEnv) :
    overrideArgs host =
      ((overrideVars.filter fun v => (env host ("TARGET_" ++ v)).isSome).map
        fun v => v ++ "=" ++ (env host ("TARGET_" ++ v)).getD "") ∧
    ∀ outDir args, configureArgs host outDir = .ok args →
      ∃ front token, args = front ++ overrideArgs host ++ [token] := by
  constructor
  · exact filterMap_optionMap_eq (fun v => env host ("TARGET_" ++ v))
      (fun v x => v ++ "=" ++ x) "" overrideVars
  · intro outDir args h
    rcases configureArgs_ok host outDir args h with ⟨th, cf, _, _, rfl⟩
    exact ⟨["--prefix=" ++ outDir, "--enable-threading=" ++ th] ++ staticArgs host,
      cf, by simp⟩

/-- C7 (witness): on a host with `TARGET_CC=gcc` and `TARGET_CFLAGS=-O2`
set and the other overrides absent, the resolver emits exactly
`CC=gcc, CFLAGS=-O2` in list order, and they sit before the final
token. -/
theorem c7_witness :
    overrideArgs hostPlain = ["CC=gcc", "CFLAGS=-O2"] ∧
    ∃ front token,
      (["--prefix=out", "--enable-threading=no", "--disable-static",
        "--enable-shared", "CC=gcc", "CFLAGS=-O2", "generic"] : List String) =
        front ++ overrideArgs hostPlain ++ [token] := by
  constructor
  · have h := (c7_override_resolution hostPlain).1
    rw [h]; rfl
  · have h := (c7_override_resolution hostPlain).2 "out"
      ["--prefix=out", "--enable-threading=no", "--disable-static",
       "--enable-shared", "CC=gcc", "CFLAGS=-O2", "generic"] (by rfl)
    exact h

/-- C8: the exclusion predicate answers `Ignore` exactly on the six fixed
names, `Default` on every other macro name, and consequently the
(spec-modelled) generated output never contains a declaration for a name
of the exclusion set. -/
theorem c8_exclusion_predicate (name : String) :
    (ignoredMacros.willParseMacro name = .Ignore ↔
      name ∈ (["FP_INFINITE", "FP_NAN", "FP_NORMAL", "FP_SUBNORMAL",
        "FP_ZERO", "IPPORT_RESERVED"] : List String)) ∧
    (ignoredMacros.willParseMacro name = .Default ↔
      name ∉ (["FP_INFINITE", "FP_NAN", "FP_NORMAL", "FP_SUBNORMAL",
        "FP_ZERO", "IPPORT_RESERVED"] : List String)) ∧
    ∀ headerNames : List String,
      name ∈ (["FP_INFINITE", "FP_NAN", "FP_NORMAL", "FP_SUBNORMAL",
        "FP_ZERO", "IPPORT_RESERVED"] : List String) →
        name ∉ generatedMacroNames ignoredMacros headerNames := by
  have hiff : ignoredMacros.willParseMacro name = .Ignore ↔
      name ∈ ignoredMacros.names := by
    unfold IgnoreMacros.willParseMacro
    by_cases h : name ∈ ignoredMacros.names
    · rw [if_pos (List.elem_iff.mpr h)]
      exact iff_of_true rfl h
    · rw [if_neg (fun hc => h (List.elem_iff.mp hc))]
      exact iff_of_false (by decide) h
  have hdef : ignoredMacros.willParseMacro name = .Default ↔
      name ∉ ignoredMacros.names := by
    unfold IgnoreMacros.willParseMacro
    by_cases h : name ∈ ignoredMacros.names
    · rw [if_pos (List.elem_iff.mpr h)]
      exact iff_of_false (by decide) (not_not_intro h)
    · rw [if_neg (fun hc => h (List.elem_iff.mp hc))]
      exact iff_of_true rfl h
  refine ⟨hiff, hdef, ?_⟩
  intro headerNames hin hcontra
  unfold generatedMacroNames at hcontra
  have h1 := List.of_mem_filter hcontra
  simp [hiff.mpr hin] at h1

/-- C8 (witness): `FP_NAN` is excluded and absent from the output for a
header containing it, while the non-excluded name survives. -/
theorem c8_witness :
    (ignoredMacros.willParseMacro "FP_NAN" = .Ignore ↔
      "FP_NAN" ∈ (["FP_INFINITE", "FP_NAN", "FP_NORMAL", "FP_SUBNORMAL",
        "FP_ZERO", "IPPORT_RESERVED"] : List String)) ∧
    "FP_NAN" ∉ generatedMacroNames ignoredMacros ["FP_NAN", "BLIS_TRANS"] := by
  exact ⟨(c8_exclusion_predicate "FP_NAN").1,
    (c8_exclusion_predicate "FP_NAN").2.2 ["FP_NAN", "BLIS_TRANS"] (by decide)⟩

/-- C2: the configuration-name token follows the documented mapping: an
explicit `BLIS_CONFNAME` override is used verbatim; otherwise `x86_64`
maps to `x86_64` when the runtime-dispatch feature is set and to `auto`
otherwise, the `arm`, `armv7`, `aarch64` and `powerpc64` families always
map to `auto`, any other architecture maps to `generic`; and the token is
the final positional configuration argument. -/
theorem c2_confname_mapping (host : HostEnv) (outDir arch : String)
    (harch : env host "CARGO_CFG_TARGET_ARCH" = some arch) :
    (∀ a, env host "BLIS_CONFNAME" = some a → blisConfname host = .ok a) ∧
    (env host "BLIS_CONFNAME" = none →
      blisConfname host = .ok (
        if arch = "x86_64" then
          (if (env host "CARGO_FEATURE_RUNTIME_DISPATCH").isSome
           then "x86_64" else "auto")
        else if arch = "arm" ∨ arch = "armv7" ∨ arch = "aarch64" ∨
          arch = "powerpc64" then "auto" else "generic")) ∧
    (∀ token args, blisConfname host = .ok token →
      configureArgs host outDir = .ok args → args.getLast? = some token) := by
  have hun : unwrapEnv host "CARGO_CFG_TARGET_ARCH" = .ok arch := by
    unfold unwrapEnv; rw [harch]
  refine ⟨?_, ?_, ?_⟩
  · intro a ha
    unfold blisConfname
    simp [Bind.bind, Except.bind, hun, ha]
  · intro hnone
    unfold blisConfname
    simp [Bind.bind, Except.bind, hun, hnone, archConfname_eq]
  · intro token args htok hargs
    rcases configureArgs_ok host outDir args hargs with ⟨th, cf, _, hcf, rfl⟩
    rw [htok] at hcf
    have hcf2 : token = cf := by injection hcf
    subst hcf2
    exact getLast?_append_singleton _ _

/-- C2 (witness): on an `aarch64` host with no override the token is
`auto` and it is last among the configure arguments. -/
theorem c2_witness :
    blisConfname hostArm = .ok "auto" ∧
    (["--prefix=out", "--enable-threading=no", "--disable-static",
      "--enable-shared", "auto"] : List String).getLast? = some "auto" := by
  have h := c2_confname_mapping hostArm "out" "aarch64" (by rfl)
  refine ⟨?_, ?_⟩
  · have h2 := h.2.1 (by rfl)
    simpa using h2
  · exact h.2.2 "auto" _ (by rfl) (by rfl)

/-- C5: every successful configuration-argument resolution emits exactly
one linkage pair — `enable-static, disable-shared` when the `static`
feature is set, `disable-static, enable-shared` when not — as one
contiguous block of the argument list. -/
theorem c5_linkage_pair (host : HostEnv) (outDir : String) (args : List String)
    (h : configureArgs host outDir = .ok args) :
    (∃ front back, args = front ++ staticArgs host ++ back) ∧
    (if (env host "CARGO_FEATURE_STATIC").isSome
     then staticArgs host = ["--enable-static", "--disable-shared"]
     else staticArgs host = ["--disable-static", "--enable-shared"]) := by
  refine ⟨?_, ?_⟩
  · rcases configureArgs_ok host outDir args h with ⟨th, cf, _, _, rfl⟩
    exact ⟨["--prefix=" ++ outDir, "--enable-threading=" ++ th],
      overrideArgs host ++ [cf], by simp⟩
  · unfold staticArgs
    by_cases hs : (env host "CARGO_FEATURE_STATIC").isSome <;> simp [hs]

/-- C5 (witness): with the `static` feature unset the dynamic-only pair is
emitted, inside the concrete argument list. -/
theorem c5_witness :
    (∃ front back,
      (["--prefix=out", "--enable-threading=no", "--disable-static",
        "--enable-shared", "CC=gcc", "CFLAGS=-O2", "generic"] : List String) =
        front ++ staticArgs hostPlain ++ back) ∧
    (if (env hostPlain "CARGO_FEATURE_STATIC").isSome
     then staticArgs hostPlain = ["--enable-static", "--disable-shared"]
     else staticArgs hostPlain = ["--disable-static", "--enable-shared"]) :=
  c5_linkage_pair hostPlain "out" _ (by rfl)

/-- C3: when the expected artifact already exists under `output_dir/lib/`,
the invocation launches zero subprocesses and performs no staged-tree
removal, creation or modification: every trace event is a probe, a
directive emission or the bindings write, never a driver effect. -/
theorem c3_skip_no_driver_effects (w : World) (outDir : String)
    (hout : w.host "OUT_DIR" = .ok outDir)
    (hlib : w.fileExists (outDir ++ "/lib" ++ "/libblis.a") = true) :
    ∀ e ∈ (mainRun w).trace, e.isDriverEffect = false := by
  rw [mainRun_unfold w outDir hout, buildPhase_skip w outDir hlib]
  by_cases hb : w.bindgenOk <;>
    simp [hb, linkDirectives, Event.isDriverEffect]

/-- C3 (witness): in the concrete world whose only file is the artifact,
no driver effect occurs. -/
theorem c3_witness :
    ((mainRun worldSkip).trace.all fun e => !e.isDriverEffect) = true := by
  rw [List.all_eq_true]
  intro e he
  simp [c3_skip_no_driver_effects worldSkip "out" (by rfl) (by rfl) e he]

/-- C9: with the artifact already present, the conflict check is never
reached: the process completes without panic even though both
`parallel-pthreads` and `parallel-openmp` are set. -/
theorem c9_skip_no_conflict_abort (w : World) (outDir : String)
    (hout : w.host "OUT_DIR" = .ok outDir)
    (hlib : w.fileExists (outDir ++ "/lib" ++ "/libblis.a") = true)
    (hbind : w.bindgenOk = true)
    (vp : String) (_hp : w.host "CARGO_FEATURE_PARALLEL_PTHREADS" = .ok vp)
    (vo : String) (_ho : w.host "CARGO_FEATURE_PARALLEL_OPENMP" = .ok vo) :
    (mainRun w).panic = none := by
  rw [mainRun_unfold w outDir hout, buildPhase_skip w outDir hlib]
  simp [hbind]

/-- C9 (witness): the concrete skip world has both threading features set
and still completes without panic. -/
theorem c9_witness :
    worldSkip.host "CARGO_FEATURE_PARALLEL_PTHREADS" = .ok "1" ∧
    worldSkip.host "CARGO_FEATURE_PARALLEL_OPENMP" = .ok "1" ∧
    (mainRun worldSkip).panic = none :=
  ⟨rfl, rfl, c9_skip_no_conflict_abort worldSkip "out" (by rfl) (by rfl)
    (by rfl) "1" (by rfl) "1" (by rfl)⟩

/-- C10: the build-or-skip existence check always probes
`out_dir/lib/libblis.a` — a path independent of every feature flag, in
particular of the static flag and the link kind announced later — and no
other file is ever probed. -/
theorem c10_probe_path_fixed (w : World) (outDir : String)
    (hout : w.host "OUT_DIR" = .ok outDir) :
    Event.probeFile (outDir ++ "/lib" ++ "/libblis.a") ∈ (mainRun w).trace ∧
    ∀ p, Event.probeFile p ∈ (mainRun w).trace →
      p = outDir ++ "/lib" ++ "/libblis.a" := by
  rcases mainRun_trace_shape w outDir hout with ⟨rest, htr, hrest⟩
  rw [htr]
  refine ⟨List.mem_cons_self _ _, ?_⟩
  intro p hp
  rcases List.mem_cons.mp hp with heq | hmem
  · injection heq
  · exact absurd rfl (hrest _ hmem p)

/-- C10 (witness): in the concrete skip world the probe of
`out/lib/libblis.a` is in the trace and is the only probe. -/
theorem c10_witness :
    Event.probeFile "out/lib/libblis.a" ∈ (mainRun worldSkip).trace ∧
    ∀ p, Event.probeFile p ∈ (mainRun worldSkip).trace →
      p = "out" ++ "/lib" ++ "/libblis.a" := by
  have h := c10_probe_path_fixed worldSkip "out" (by rfl)
  exact ⟨h.1, h.2⟩

/-- C6: once the build-or-skip phase finishes without panic — whether or
not a build happened — the four `cargo:` directives appear in the trace as
one contiguous block: library search path, include path, link-lib with
kind `static` exactly when the `static` feature is set (else `dylib`),
and the rerun directive. -/
theorem c6_link_directives (w : World) (outDir : String)
    (hout : w.host "OUT_DIR" = .ok outDir)
    (hpre : (buildPhase w outDir).panic = none) :
    ∃ front tail kind,
      (mainRun w).trace = front ++ linkDirectives w.host outDir ++ tail ∧
      linkDirectives w.host outDir =
        [Event.emit ("cargo:rustc-link-search=native=" ++ (outDir ++ "/lib")),
         Event.emit ("cargo:include=" ++ (outDir ++ "/include")),
         Event.emit ("cargo:rustc-link-lib=" ++ kind ++ "=blis"),
         Event.emit "cargo:rerun-if-changed=build.rs"] ∧
      (kind = "static" ↔ (env w.host "CARGO_FEATURE_STATIC").isSome) ∧
      (kind = "dylib" ↔ ¬(env w.host "CARGO_FEATURE_STATIC").isSome) := by
  rw [mainRun_unfold w outDir hout, hpre]
  have hkind : ∃ kind,
      linkDirectives w.host outDir =
        [Event.emit ("cargo:rustc-link-search=native=" ++ (outDir ++ "/lib")),
         Event.emit ("cargo:include=" ++ (outDir ++ "/include")),
         Event.emit ("cargo:rustc-link-lib=" ++ kind ++ "=blis"),
         Event.emit "cargo:rerun-if-changed=build.rs"] ∧
      (kind = "static" ↔ (env w.host "CARGO_FEATURE_STATIC").isSome) ∧
      (kind = "dylib" ↔ ¬(env w.host "CARGO_FEATURE_STATIC").isSome) := by
    by_cases hs : (env w.host "CARGO_FEATURE_STATIC").isSome
    · exact ⟨"static", by simp [linkDirectives, hs],
        iff_of_true rfl hs, iff_of_false (by decide) (not_not_intro hs)⟩
    · exact ⟨"dylib", by simp [linkDirectives, hs],
        iff_of_false (by decide) hs, iff_of_true rfl hs⟩
  rcases hkind with ⟨kind, hdirs, hk1, hk2⟩
  by_cases hb : w.bindgenOk
  · rw [if_pos hb]
    exact ⟨(buildPhase w outDir).trace,
      [Event.writeBindings (outDir ++ "/bindings.rs")], kind, rfl, hdirs, hk1, hk2⟩
  · rw [if_neg hb]
    exact ⟨(buildPhase w outDir).trace, [], kind, by simp, hdirs, hk1, hk2⟩

/-- C6 (witness): in the concrete skip world (static feature unset) the
directive block is present with kind `dylib`. -/
theorem c6_witness :
    ∃ front tail kind,
      (mainRun worldSkip).trace = front ++ linkDirectives worldSkip.host "out" ++ tail ∧
      linkDirectives worldSkip.host "out" =
        [Event.emit ("cargo:rustc-link-search=native=" ++ ("out" ++ "/lib")),
         Event.emit ("cargo:include=" ++ ("out" ++ "/include")),
         Event.emit ("cargo:rustc-link-lib=" ++ kind ++ "=blis"),
         Event.emit "cargo:rerun-if-changed=build.rs"] ∧
      (kind = "static" ↔ (env worldSkip.host "CARGO_FEATURE_STATIC").isSome) ∧
      (kind = "dylib" ↔ ¬(env worldSkip.host "CARGO_FEATURE_STATIC").isSome) :=
  c6_link_directives worldSkip "out" (by rfl)
    (by rw [buildPhase_skip worldSkip "out" (by rfl)])

/-- C1 (counterexample): in a world with both threading features set and
no artifact present, the process does abort with the configuration
conflict — but only after the `cp` subprocess staging the build tree has
been launched, contradicting the claim that the abort precedes any
subprocess launch. -/
theorem c1_counterexample :
    (mainRun worldBoth).panic = some .mutuallyExclusiveThreading ∧
    Event.spawn "cp" ["-R", "upstream", "out/blis_t"] [] ∈
      (mainRun worldBoth).trace := by
  refine ⟨rfl, ?_⟩
  have h : (mainRun worldBoth).trace =
      [Event.probeFile "out/lib/libblis.a",
       Event.spawn "cp" ["-R", "upstream", "out/blis_t"] []] := by rfl
  rw [h]
  simp

/-- C1 (amended): when both threading features are asserted and the build
path is taken (artifact absent, `TARGET` set, vendored source present),
the process aborts with the configuration-conflict error before the
native configure and build subprocesses are launched — every subprocess
in the trace is the staging `cp` — but after the staged-tree cleanup and
that copy subprocess have already occurred. -/
theorem c1_conflict_aborts_after_staging (w : World) (outDir target : String)
    (hout : w.host "OUT_DIR" = .ok outDir)
    (hlib : w.fileExists (outDir ++ "/lib" ++ "/libblis.a") = false)
    (htarget : w.host "TARGET" = .ok target)
    (hup : w.upstreamOk = true)
    (vp : String) (hp : w.host "CARGO_FEATURE_PARALLEL_PTHREADS" = .ok vp)
    (vo : String) (ho : w.host "CARGO_FEATURE_PARALLEL_OPENMP" = .ok vo) :
    (mainRun w).panic = some .mutuallyExclusiveThreading ∧
    Event.spawn "cp" ["-R", "upstream", outDir ++ "/blis_" ++ lowercase target] []
      ∈ (mainRun w).trace ∧
    ∀ prog args ex, Event.spawn prog args ex ∈ (mainRun w).trace →
      prog = "cp" := by
  have hthr : threadingOf w.host = .error .mutuallyExclusiveThreading := by
    unfold threadingOf env
    rw [hp, ho]
  have hcfg : configureArgs w.host outDir = .error .mutuallyExclusiveThreading := by
    unfold configureArgs
    rw [hthr]
    rfl
  have hcomp : compile w.host (outDir ++ "/blis_" ++ lowercase target) outDir =
      ⟨[], some .mutuallyExclusiveThreading⟩ := by
    unfold compile
    rw [hcfg]
  have hun : unwrapEnv w.host "TARGET" = .ok target := by
    unfold unwrapEnv env
    rw [htarget]
  have hbp : buildPhase w outDir =
      ⟨(if w.fileExists (outDir ++ "/blis_" ++ lowercase target) then
          [Event.probeFile (outDir ++ "/lib" ++ "/libblis.a"),
           Event.removeDirAll (outDir ++ "/blis_" ++ lowercase target)]
        else [Event.probeFile (outDir ++ "/lib" ++ "/libblis.a")]) ++
        [Event.spawn "cp" ["-R", "upstream", outDir ++ "/blis_" ++ lowercase target] []],
        some .mutuallyExclusiveThreading⟩ := by
    unfold buildPhase
    by_cases hbd : w.fileExists (outDir ++ "/blis_" ++ lowercase target) <;>
      simp [hlib, hun, hup, hcomp, hbd]
  rw [mainRun_unfold w outDir hout, hbp]
  refine ⟨rfl, by simp, ?_⟩
  intro prog args ex hmem
  by_cases hbd : w.fileExists (outDir ++ "/blis_" ++ lowercase target) <;>
    simp [hbd] at hmem <;> exact hmem.1

/-- C1 (witness): the amended statement at the concrete conflicting
world. -/
theorem c1_witness :
    (mainRun worldBoth).panic = some .mutuallyExclusiveThreading ∧
    Event.spawn "cp" ["-R", "upstream", "out" ++ "/blis_" ++ lowercase "t"] []
      ∈ (mainRun worldBoth).trace :=
  ⟨(c1_conflict_aborts_after_staging worldBoth "out" "t" (by rfl) (by rfl)
      (by rfl) rfl "1" (by rfl) "1" (by rfl)).1,
   (c1_conflict_aborts_after_staging worldBoth "out" "t" (by rfl) (by rfl)
      (by rfl) rfl "1" (by rfl) "1" (by rfl)).2.1⟩

end BlisSys
